import Mathlib

/-!
# plasmactl-publish: the `publish` action (`plugin.go`)

A shallow embedding of `publish` and `getCredentials` from `plugin.go`, and the
properties of the publish workflow proved about it.

## The model

The two functions are sequences of calls into the outside world: git, the file
system, the keyring, the terminal, the logger and HTTP.

* A `World` holds the answer of the outside world to each call, as a function
  of the arguments of the call.  The helpers `getRepoInfo`, `isURLAccessible`
  and `listFiles` are defined outside `plugin.go`; like the library calls they
  are answered by the world.
* Every call the program makes is recorded, with its arguments and in program
  order, as an `Event` in the `trace` of the resulting `Run`.  "No PUT is
  issued" is the absence of a `clientDo` event with method `PUT` in the trace,
  "`k.Save()` is called once" is one `keyringSave` event, and so on.
* A run ends by returning an error value (`none` for `nil`) or by a run-time
  panic (`Outcome.panicked`): reading a field of a nil `*http.Response` panics.
* A deferred call runs when the function ends, by return or by panic, after
  everything that follows the `defer` statement (`Run.defer`); deferred calls
  run last-in first-out.
* `fmt.Sprintf`, `filepath.Join` and `path.Clean` are implemented for the uses
  the program makes of them: formats with the verb `%s`, Unix paths.
-/

namespace PlasmactlPublish

/-! ## Go values -/

/-- Go `error` values, up to what the program can observe of them: the two
keyring sentinels it tests with `errors.Is`, the file-system sentinel it tests
with `os.IsNotExist`, and every other error, identified by its message. -/
inductive GoError where
  /-- An error `e` with `errors.Is(e, keyring.ErrEmptyPass)`. -/
  | errEmptyPass
  /-- An error `e` with `errors.Is(e, keyring.ErrNotFound)`. -/
  | errNotFound
  /-- An error `e` with `os.IsNotExist(e)`. -/
  | errNotExist
  /-- Any other error, with the text of `e.Error()`. -/
  | msg (text : String)
  deriving DecidableEq, Repr

/-- The type `keyring.CredentialsItem`. -/
structure CredentialsItem where
  URL : String
  Username : String
  Password : String
  deriving DecidableEq, Repr

/-- The part of an `*http.Request` that `publish` sets: method, URL, the basic
authentication pair and the file streamed as body (`none` for `http.NoBody`). -/
structure Request where
  method : String
  url : String
  basicAuth : Option (String × String)
  body : Option String
  deriving DecidableEq, Repr

/-- The part of an `*http.Response` that `publish` reads. -/
structure Response where
  StatusCode : Nat
  Status : String
  deriving DecidableEq, Repr

/-- The status codes on which `http.Client` follows a redirect. -/
inductive RedirectCode where
  | movedPermanently
  | found
  | seeOther
  | temporaryRedirect
  | permanentRedirect
  deriving DecidableEq, Repr

/-- The numeric value of a redirect status. -/
def RedirectCode.toNat : RedirectCode → Nat
  | .movedPermanently => 301
  | .found => 302
  | .seeOther => 303
  | .temporaryRedirect => 307
  | .permanentRedirect => 308

/-- The pair `(resp, err)` returned by `(*http.Client).Do`.  By the contract of
`net/http` either `err` is nil and `resp` is not, or `err` is not nil and
`resp` is nil, except when the redirect policy fails: then both are non-nil
and `resp` is the last redirect response. -/
inductive DoResult where
  /-- The pair `(resp, nil)`. -/
  | response (resp : Response)
  /-- The pair `(nil, err)`. -/
  | transportError (err : GoError)
  /-- The pair `(resp, err)` of a failed redirect policy. -/
  | redirectError (code : RedirectCode) (status : String) (err : GoError)
  deriving DecidableEq, Repr

/-- The response of a `Do` result, `none` for a nil `*http.Response`. -/
def DoResult.resp : DoResult → Option Response
  | .response r => some r
  | .transportError _ => none
  | .redirectError code status _ => some ⟨code.toNat, status⟩

/-- The error of a `Do` result, `none` for a nil error. -/
def DoResult.err : DoResult → Option GoError
  | .response _ => none
  | .transportError e => some e
  | .redirectError _ _ e => some e

/-- A value logged as a key/value attribute. -/
inductive LogValue where
  | str (s : String)
  | int (n : Int)
  deriving DecidableEq, Repr

/-! ## The outside world and the record of a run -/

/-- The answers of the outside world to the calls `publish` makes. -/
structure World where
  /-- The triple returned by `getRepoInfo()`. -/
  getRepoInfo : String × String × Option GoError
  /-- For `isURLAccessible(url, &code)`: the boolean returned and the value
  of `code` afterwards. -/
  isURLAccessible : String → Bool × Int
  /-- The error returned by `listFiles(dir)`. -/
  listFiles : String → Option GoError
  /-- The error returned by `os.Stat(path)`. -/
  osStat : String → Option GoError
  /-- The error returned by `os.Open(path)`. -/
  osOpen : String → Option GoError
  /-- The pair returned by `k.GetForURL(url)`. -/
  getForURL : String → CredentialsItem × Option GoError
  /-- For `keyring.RequestCredentialsFromTty(&ci)`: the item afterwards and
  the error returned. -/
  requestCredentialsFromTty : CredentialsItem → CredentialsItem × Option GoError
  /-- The error returned by `k.AddItem(ci)`. -/
  addItem : CredentialsItem → Option GoError
  /-- The error returned by `k.Save()`. -/
  save : Option GoError
  /-- The error returned by `http.NewRequest(method, url, body)`. -/
  newRequest : String → String → Option GoError
  /-- The pair returned by `client.Do(req)`. -/
  clientDo : Request → DoResult

/-- The calls into the outside world, with their arguments. -/
inductive Event where
  | getRepoInfo
  | isURLAccessible (url : String)
  | listFiles (dir : String)
  | osStat (path : String)
  | osOpen (path : String)
  | fileClose
  | keyringGetForURL (url : String)
  | requestCredentialsFromTty (ci : CredentialsItem)
  | keyringAddItem (ci : CredentialsItem)
  | keyringSave
  | newRequest (method url : String)
  | clientDo (req : Request)
  | bodyClose
  | logError (message : String) (err : GoError)
  | logInfo (message : String) (attrs : List (String × LogValue))
  | termPrint (text : String)
  | termInfo (text : String)
  | termSuccess (text : String)
  deriving DecidableEq, Repr

/-- How a call of `publish` ends. -/
inductive Outcome where
  /-- The function returned this error (`none` is `nil`). -/
  | returned (err : Option GoError)
  /-- A run-time panic unwound the function. -/
  | panicked
  deriving DecidableEq, Repr

/-- A run: the calls made, in order, and how the function ended. -/
structure Run where
  trace : List Event
  outcome : Outcome
  deriving DecidableEq, Repr

/-- The run `r` preceded by the calls `evs`. -/
def Run.after (evs : List Event) (r : Run) : Run :=
  ⟨evs ++ r.trace, r.outcome⟩

/-- The run `r` with the calls `evs` of a deferred function executed when it
ends, by return or by panic. -/
def Run.defer (evs : List Event) (r : Run) : Run :=
  ⟨r.trace ++ evs, r.outcome⟩

/-! ## Library functions -/

/-- The function `fmt.Sprintf` on the characters of a format whose only verb
is `%s`, with string operands. -/
def sprintfAux : List Char → List String → List Char
  | [], _ => []
  | [c], _ => [c]
  | c :: d :: rest, args =>
    if c = '%' ∧ d = 's' then
      match args with
      | a :: args => a.data ++ sprintfAux rest args
      | [] => "%!s(MISSING)".data ++ sprintfAux rest []
    else c :: sprintfAux (d :: rest) args

/-- The function `fmt.Sprintf` for formats whose only verb is `%s`. -/
def sprintf (format : String) (args : List String) : String :=
  String.mk (sprintfAux format.data args)

/-- The elements of a path between its slashes. -/
def splitSlash : List Char → List (List Char)
  | [] => [[]]
  | c :: cs =>
    if c = '/' then [] :: splitSlash cs
    else
      match splitSlash cs with
      | [] => [[c]]
      | s :: ss => (c :: s) :: ss

/-- The element pass of `path.Clean`: empty and `.` elements are dropped, a
`..` element removes the element before it, is dropped at the root and is kept
at the start of a relative path.  `stack` holds the kept elements, last first. -/
def cleanSegs (rooted : Bool) : List (List Char) → List (List Char) → List (List Char)
  | stack, [] => stack.reverse
  | stack, seg :: rest =>
    if seg = [] ∨ seg = ['.'] then cleanSegs rooted stack rest
    else if seg = ['.', '.'] then
      match stack with
      | top :: below =>
        if top = ['.', '.'] then cleanSegs rooted (seg :: stack) rest
        else cleanSegs rooted below rest
      | [] => if rooted then cleanSegs rooted [] rest else cleanSegs rooted [seg] rest
    else cleanSegs rooted (seg :: stack) rest

/-- The function `path.Clean` (and `filepath.Clean` on Unix): the shortest
path name equivalent to `p` by purely lexical processing. -/
def pathClean (p : String) : String :=
  let rooted := p.data.head? = some '/'
  let segs := cleanSegs rooted [] (splitSlash p.data)
  let out := (if rooted then ['/'] else []) ++ List.intercalate ['/'] segs
  if out = [] then "." else String.mk out

/-- The function `filepath.Join` on Unix: the elements from the first
non-empty one on, joined by slashes and cleaned; `""` if all are empty. -/
def filepathJoin (elem : List String) : String :=
  match elem.dropWhile (fun e => e = "") with
  | [] => ""
  | es => pathClean (String.mk (List.intercalate ['/'] (es.map String.data)))

/-! ## `getCredentials` (plugin.go, lines 158-191) -/

/-- What `getCredentials` did and returned: its calls, and the triple
`(ci, save, err)`. -/
structure CredentialsResult where
  trace : List Event
  ci : CredentialsItem
  save : Bool
  err : Option GoError
  deriving DecidableEq, Repr

/-- The function `getCredentials(url, username, password, k)`; the keyring `k`
is the keyring of the world `w`. -/
def getCredentials (w : World) (url username password : String) : CredentialsResult :=
  match w.getForURL url with
  | (ci, none) => ⟨[.keyringGetForURL url], ci, false, none⟩
  | (ci, some err) =>
    if err = .errEmptyPass then
      ⟨[.keyringGetForURL url], ci, false, some err⟩
    else if err ≠ .errNotFound then
      ⟨[.keyringGetForURL url, .logError "error" err], ci, false,
        some (.msg "the keyring is malformed or wrong passphrase provided")⟩
    else
      let ci := CredentialsItem.mk url username password
      if ci.Username = "" ∨ ci.Password = "" then
        let info :=
          if ci.URL ≠ "" then
            [Event.termInfo (sprintf "Please add login and password for URL - %s" [ci.URL])]
          else []
        let asked := w.requestCredentialsFromTty ci
        let t := [Event.keyringGetForURL url] ++ info ++ [Event.requestCredentialsFromTty ci]
        match asked.2 with
        | some err => ⟨t, asked.1, false, some err⟩
        | none =>
          match w.addItem asked.1 with
          | some err => ⟨t ++ [.keyringAddItem asked.1], asked.1, false, some err⟩
          | none => ⟨t ++ [.keyringAddItem asked.1], asked.1, true, none⟩
      else
        match w.addItem ci with
        | some err => ⟨[.keyringGetForURL url, .keyringAddItem ci], ci, false, some err⟩
        | none => ⟨[.keyringGetForURL url, .keyringAddItem ci], ci, true, none⟩

/-! ## `publish` (plugin.go, lines 57-156) -/

/-- The local `artifactDir` of `publish`. -/
def artifactDir : String := ".compose/artifacts"

/-- The initial value of the local `artifactsRepositoryDomain`. -/
def publicDomain : String := "https://repositories.skilld.cloud"

/-- The domain probed with `isURLAccessible`. -/
def internalDomain : String := "http://repositories.interaction.svc.skilld:8081"

/-- The local `archiveFile` of `publish` (line 66). -/
def archiveFile (repoName lastCommitShortSHA : String) : String :=
  sprintf "%s-%s-plasma-src.tar.gz" [repoName, lastCommitShortSHA]

/-- The local `artifactPath` of `publish` (line 70). -/
def artifactPath (archiveFile : String) : String :=
  filepathJoin [artifactDir, archiveFile]

/-- The local `artifactsRepositoryDomain` of `publish` after the probe of the
internal domain (lines 71-77). -/
def artifactsRepositoryDomain (w : World) : String :=
  if (w.isURLAccessible internalDomain).1 then internalDomain else publicDomain

/-- The local `artifactArchiveURL` of `publish` (line 79). -/
def artifactArchiveURL (domain repoName archiveFile : String) : String :=
  sprintf "%s/repository/%s-artifacts/%s" [domain, repoName, archiveFile]

/-- The deferred closure of `publish` (lines 146-153): `k.Save()` when `save`
is set, its error logged. -/
def deferredSave (w : World) (save : Bool) : List Event :=
  if save then
    match w.save with
    | some err => [.keyringSave, .logError "error during saving keyring file" err]
    | none => [.keyringSave]
  else []

/-- The function `publish(username, password, k)`. -/
def publish (w : World) (username password : String) : Run :=
  match w.getRepoInfo with
  | (_, _, some err) =>
    ⟨[.getRepoInfo, .logError "error" err],
      .returned (some (.msg "error getting repository information"))⟩
  | (repoName, lastCommitShortSHA, none) =>
    let archiveFile := archiveFile repoName lastCommitShortSHA
    let artifactPath := artifactPath archiveFile
    let accessibilityCode := (w.isURLAccessible internalDomain).2
    let artifactsRepositoryDomain := artifactsRepositoryDomain w
    let artifactArchiveURL := artifactArchiveURL artifactsRepositoryDomain repoName archiveFile
    Run.after
      [.getRepoInfo, .isURLAccessible internalDomain,
        .logInfo "artifact info"
          [("ARTIFACT_DIR", .str artifactDir), ("ARTIFACT_FILE", .str archiveFile),
            ("ARTIFACTS_REPOSITORY_DOMAIN", .str artifactsRepositoryDomain),
            ("ARTIFACT_ARCHIVE_URL", .str artifactArchiveURL),
            ("URL Accessibility Code", .int accessibilityCode)],
        .listFiles artifactDir] <|
    match w.listFiles artifactDir with
    | some err => ⟨[], .returned (some err)⟩
    | none =>
    Run.after [.osStat artifactPath] <|
    if w.osStat artifactPath = some .errNotExist then
      ⟨[], .returned (some (.msg (sprintf
        "artifact %s not found in %s. Execute \x27plasmactl package\x27 before"
        [archiveFile, artifactDir])))⟩
    else
    Run.after
      [.termPrint (sprintf "Looking for artifact %s in %s" [archiveFile, artifactDir]),
        .osOpen (pathClean artifactPath)] <|
    match w.osOpen (pathClean artifactPath) with
    | some err => ⟨[.logError "error" err], .returned (some (.msg "error opening artifact file"))⟩
    | none =>
    Run.defer [.fileClose] <|
    Run.after [.termPrint "Getting credentials"] <|
    let creds := getCredentials w artifactsRepositoryDomain username password
    let ci := creds.ci
    let save := creds.save
    Run.after creds.trace <|
    match creds.err with
    | some err => ⟨[], .returned (some err)⟩
    | none =>
    Run.after [.newRequest "HEAD" artifactsRepositoryDomain] <|
    match w.newRequest "HEAD" artifactsRepositoryDomain with
    | some err => ⟨[.logError "error" err], .returned (some (.msg "error creating HTTP request"))⟩
    | none =>
    let authRequest : Request :=
      ⟨"HEAD", artifactsRepositoryDomain, some (ci.Username, ci.Password), none⟩
    Run.after [.clientDo authRequest] <|
    match (w.clientDo authRequest).resp with
    | none => ⟨[], .panicked⟩
    | some respAuth =>
    if respAuth.StatusCode ≠ 200 then
      ⟨[], .returned (some (.msg (sprintf "failed to upload artifact: %s" [respAuth.Status])))⟩
    else
    Run.after [.newRequest "PUT" artifactArchiveURL] <|
    match w.newRequest "PUT" artifactArchiveURL with
    | some err => ⟨[], .returned (some err)⟩
    | none =>
    let uploadRequest : Request :=
      ⟨"PUT", artifactArchiveURL, some (ci.Username, ci.Password), some (pathClean artifactPath)⟩
    Run.after
      [.termPrint (sprintf "Publishing artifact %s/%s to %s..."
          [artifactDir, archiveFile, artifactArchiveURL]),
        .clientDo uploadRequest] <|
    match w.clientDo uploadRequest with
    | .transportError err | .redirectError _ _ err =>
      ⟨[.logError "error" err], .returned (some (.msg "error uploading artifact"))⟩
    | .response respUpload =>
    Run.defer [.bodyClose] <|
    if respUpload.StatusCode ≠ 200 ∧ respUpload.StatusCode ≠ 201 then
      ⟨[], .returned (some (.msg (sprintf "failed to upload artifact: %s" [respUpload.Status])))⟩
    else
    Run.after [.termSuccess "Artifact successfully uploaded"] <|
    Run.defer (deferredSave w save) <|
    ⟨[], .returned none⟩

/-! ## Example worlds -/

/-- A world in which the repository is `demo` at commit `abc1234`, the internal
domain is not reachable, the artifact directory can be listed and the artifact
opened, and nobody sits at the terminal; the remaining answers are arguments. -/
def scenario (stored : CredentialsItem × Option GoError) (added stat : Option GoError)
    (head put : DoResult) (saved : Option GoError) : World where
  getRepoInfo := ("demo", "abc1234", none)
  isURLAccessible := fun _ => (false, 0)
  listFiles := fun _ => none
  osStat := fun _ => stat
  osOpen := fun _ => none
  getForURL := fun _ => stored
  requestCredentialsFromTty := fun ci => (ci, some (.msg "not a terminal"))
  addItem := fun _ => added
  save := saved
  newRequest := fun _ _ => none
  clientDo := fun req => if req.method = "HEAD" then head else put

/-- The answer of a keyring without an entry for the URL. -/
def notStored : CredentialsItem × Option GoError :=
  (⟨"", "", ""⟩, some .errNotFound)

/-- The answer of a keyring with an entry for the public domain. -/
def storedItem : CredentialsItem × Option GoError :=
  (⟨"https://repositories.skilld.cloud", "alice", "hunter2"⟩, none)

/-- A response `200 OK`. -/
def ok200 : DoResult := .response ⟨200, "200 OK"⟩

/-- A response `201 Created`. -/
def created201 : DoResult := .response ⟨201, "201 Created"⟩

/-- The world of a successful first publication: no stored credentials, the
HEAD answered 200 and the PUT answered 201. -/
def demoWorld : World :=
  scenario notStored none none ok200 created201 none

/-- The HEAD request of `publish` in the example worlds with supplied
credentials `user` / `secret`. -/
def demoHead : Request :=
  ⟨"HEAD", "https://repositories.skilld.cloud", some ("user", "secret"), none⟩

/-- The PUT request of `publish` in the example worlds with supplied
credentials `user` / `secret`. -/
def demoPut : Request :=
  ⟨"PUT", "https://repositories.skilld.cloud/repository/demo-artifacts/demo-abc1234-plasma-src.tar.gz",
    some ("user", "secret"), some ".compose/artifacts/demo-abc1234-plasma-src.tar.gz"⟩

/-- The world of `demoWorld` with the PUT answered 500. -/
def rejectedWorld : World :=
  scenario notStored none none ok200 (.response ⟨500, "500 Internal Server Error"⟩) none

/-- The world of `demoWorld` with the HEAD failing before any response. -/
def refusedWorld : World :=
  scenario notStored none none (.transportError (.msg "connection refused")) created201 none

/-- A world with stored credentials that the repository rejects with 401. -/
def unauthorizedWorld : World :=
  scenario storedItem none none (.response ⟨401, "401 Unauthorized"⟩) created201 none

/-- The HEAD request of `publish` with the stored credentials. -/
def storedHead : Request :=
  ⟨"HEAD", "https://repositories.skilld.cloud", some ("alice", "hunter2"), none⟩

/-- The world of `demoWorld` without the artifact file. -/
def missingWorld : World :=
  scenario notStored none (some .errNotExist) ok200 created201 none

/-- The world of `missingWorld` in which the artifact directory cannot be
listed either. -/
def unlistableWorld : World where
  getRepoInfo := ("demo", "abc1234", none)
  isURLAccessible := fun _ => (false, 0)
  listFiles := fun _ => some (.msg "open .compose/artifacts: no such file or directory")
  osStat := fun _ => some .errNotExist
  osOpen := fun _ => some .errNotExist
  getForURL := fun _ => notStored
  requestCredentialsFromTty := fun ci => (ci, some (.msg "not a terminal"))
  addItem := fun _ => none
  save := none
  newRequest := fun _ _ => none
  clientDo := fun req => if req.method = "HEAD" then ok200 else created201

/-- The world of `demoWorld` with a keyring that rejects new items. -/
def addFailsWorld : World :=
  scenario notStored (some (.msg "item can not be added")) none ok200 created201 none

/-- The world of `demoWorld` with a keyring opened without passphrase. -/
def emptyPassWorld : World :=
  scenario (⟨"", "", ""⟩, some .errEmptyPass) none none ok200 created201 none

/-- The world of `demoWorld` with a keyring that cannot be written. -/
def saveFailsWorld : World :=
  scenario notStored none none ok200 created201 (some (.msg "disk full"))

/-! ## Predicates on traces -/

/-- The event is a network call: the reachability probe or a `client.Do`. -/
def Event.isNetwork : Event → Bool
  | .isURLAccessible _ => true
  | .clientDo _ => true
  | _ => false

/-- The world answers request `req` with a response of status 200 or 201. -/
def World.accepts (w : World) (req : Request) : Prop :=
  ∃ r, (w.clientDo req).resp = some r ∧ (r.StatusCode = 200 ∨ r.StatusCode = 201)

/-- The run issued a PUT that the world answered with status 200 or 201. -/
def putAccepted (w : World) (run : Run) : Prop :=
  ∃ req, Event.clientDo req ∈ run.trace ∧ req.method = "PUT" ∧ w.accepts req

/-! ## Library lemmas -/

theorem sprintf_one (a : String) :
    sprintf "failed to upload artifact: %s" [a] = "failed to upload artifact: " ++ a := by
  apply String.ext
  simp [sprintf, sprintfAux]

theorem archiveFile_eq (repoName lastCommitShortSHA : String) :
    archiveFile repoName lastCommitShortSHA =
      repoName ++ "-" ++ lastCommitShortSHA ++ "-plasma-src.tar.gz" := by
  apply String.ext
  simp [archiveFile, sprintf, sprintfAux]

theorem artifactArchiveURL_eq (domain repoName file : String) :
    artifactArchiveURL domain repoName file =
      domain ++ "/repository/" ++ repoName ++ "-artifacts/" ++ file := by
  apply String.ext
  simp [artifactArchiveURL, sprintf, sprintfAux]

theorem splitSlash_of_not_mem (l : List Char) (h : '/' ∉ l) : splitSlash l = [l] := by
  induction l with
  | nil => rfl
  | cons c cs ih =>
    simp only [List.mem_cons, not_or] at h
    have hc : c ≠ '/' := fun e => h.1 e.symm
    simp [splitSlash, hc, ih h.2]

/-- For a repository name and a commit hash without slash, the artifact path
is the artifact directory, a slash and the file name. -/
theorem artifactPath_archiveFile (r h : String) (hr : '/' ∉ r.data) (hh : '/' ∉ h.data) :
    artifactPath (archiveFile r h) =
      ".compose/artifacts/" ++ r ++ "-" ++ h ++ "-plasma-src.tar.gz" := by
  have hname : '/' ∉ (archiveFile r h).data := by
    simp [archiveFile, sprintf, sprintfAux, hr, hh]
  have hlen : 18 ≤ (archiveFile r h).data.length := by
    simp [archiveFile, sprintf, sprintfAux]
    omega
  have hfd : (archiveFile r h).data = r.data ++ '-' :: (h.data ++ "-plasma-src.tar.gz".data) := by
    simp [archiveFile, sprintf, sprintfAux]
  generalize archiveFile r h = f at hname hlen hfd
  have hsplit := splitSlash_of_not_mem f.data hname
  have h1 : f.data ≠ [] := by intro e; simp [e] at hlen
  have h2 : f.data ≠ ['.'] := by intro e; simp [e] at hlen
  have h3 : f.data ≠ ['.', '.'] := by intro e; simp [e] at hlen
  apply String.ext
  simp [artifactPath, filepathJoin, artifactDir, pathClean, splitSlash, hsplit, cleanSegs,
    h1, h2, h3, List.intercalate, List.intersperse]
  simp [hfd]

theorem RedirectCode.toNat_ne_200 (code : RedirectCode) : code.toNat ≠ 200 := by
  cases code <;> simp [RedirectCode.toNat]

theorem RedirectCode.toNat_ne_201 (code : RedirectCode) : code.toNat ≠ 201 := by
  cases code <;> simp [RedirectCode.toNat]

/-! ## The calls of `getCredentials` and of the deferred closure -/

theorem getCredentials_trace_cases (w : World) (url username password : String) (e : Event)
    (he : e ∈ (getCredentials w url username password).trace) :
    e = .keyringGetForURL url ∨ (∃ m err, e = .logError m err) ∨ (∃ t, e = .termInfo t) ∨
      (∃ ci, e = .requestCredentialsFromTty ci) ∨ (∃ ci, e = .keyringAddItem ci) := by
  unfold getCredentials at he
  split at he
  · simp_all
  · split at he
    · simp_all
    · split at he
      · simp at he; rcases he with rfl | rfl <;> simp
      · simp only at he
        split at he
        · split at he
          · split at he <;> simp at he <;> aesop
          · split at he <;> split at he <;> simp at he <;> aesop
        · split at he <;> simp at he <;> aesop

theorem getCredentials_no_clientDo (w : World) (url username password : String) (req : Request) :
    Event.clientDo req ∉ (getCredentials w url username password).trace := by
  intro h
  have := getCredentials_trace_cases w url username password _ h
  simp at this

theorem getCredentials_no_save (w : World) (url username password : String) :
    Event.keyringSave ∉ (getCredentials w url username password).trace := by
  intro h
  have := getCredentials_trace_cases w url username password _ h
  simp at this

theorem getCredentials_getForURL (w : World) (url username password u : String)
    (h : Event.keyringGetForURL u ∈ (getCredentials w url username password).trace) : u = url := by
  have := getCredentials_trace_cases w url username password _ h
  simpa using this

theorem getCredentials_count_save (w : World) (url username password : String) :
    (getCredentials w url username password).trace.count Event.keyringSave = 0 :=
  List.count_eq_zero.mpr (getCredentials_no_save w url username password)

theorem deferredSave_no_clientDo (w : World) (save : Bool) (req : Request) :
    Event.clientDo req ∉ deferredSave w save := by
  unfold deferredSave
  split
  · split <;> simp
  · simp

theorem deferredSave_count (w : World) (save : Bool) :
    (deferredSave w save).count Event.keyringSave = if save then 1 else 0 := by
  unfold deferredSave
  split
  · split <;> simp
  · simp

theorem deferredSave_no_getForURL (w : World) (save : Bool) (url : String) :
    Event.keyringGetForURL url ∉ deferredSave w save := by
  unfold deferredSave
  split
  · split <;> simp
  · simp

theorem deferredSave_no_osStat (w : World) (save : Bool) (path : String) :
    Event.osStat path ∉ deferredSave w save := by
  unfold deferredSave
  split
  · split <;> simp
  · simp

/-- The names `publish` uses, in terms of its locals. -/
theorem publish_names_aux (w : World) (username password repoName sha : String)
    (hrepo : w.getRepoInfo = (repoName, sha, none)) :
    (∃ attrs, Event.logInfo "artifact info" attrs ∈ (publish w username password).trace ∧
      ("ARTIFACT_FILE", LogValue.str (archiveFile repoName sha)) ∈ attrs) ∧
    (∀ path, Event.osStat path ∈ (publish w username password).trace →
      path = artifactPath (archiveFile repoName sha)) ∧
    (∀ req, Event.clientDo req ∈ (publish w username password).trace →
      (req.method = "PUT" ∧
        req.url = artifactArchiveURL (artifactsRepositoryDomain w) repoName
          (archiveFile repoName sha)) ∨
      (req.method = "HEAD" ∧ req.url = artifactsRepositoryDomain w)) ∧
    (∀ url, Event.keyringGetForURL url ∈ (publish w username password).trace →
      url = artifactsRepositoryDomain w) ∧
    ((publish w username password).outcome = .returned none →
      ∃ req, Event.clientDo req ∈ (publish w username password).trace ∧ req.method = "PUT") := by
  have hgc := getCredentials_no_clientDo w (artifactsRepositoryDomain w) username password
  have hu := getCredentials_getForURL w (artifactsRepositoryDomain w) username password
  have hst : ∀ path, Event.osStat path ∉
      (getCredentials w (artifactsRepositoryDomain w) username password).trace := by
    intro path h
    have := getCredentials_trace_cases w _ username password _ h
    simp at this
  have hds : ∀ path save, Event.osStat path ∉ deferredSave w save :=
    fun path save => deferredSave_no_osStat w save path
  generalize hrun : publish w username password = run
  unfold publish at hrun
  rw [hrepo] at hrun
  dsimp only at hrun
  repeat' split at hrun
  all_goals subst hrun
  all_goals simp [Run.after, Run.defer, deferredSave_no_clientDo, deferredSave_no_getForURL,
    hgc, hst, hds]
  all_goals try exact hu

/-- A run of `publish` issues the PUT exactly when every earlier stage passed
and the HEAD was answered with status 200. -/
theorem publish_issues_put_iff (w : World) (username password repoName sha : String)
    (hrepo : w.getRepoInfo = (repoName, sha, none)) :
    (∃ req, Event.clientDo req ∈ (publish w username password).trace ∧ req.method = "PUT") ↔
      w.listFiles artifactDir = none ∧
      w.osStat (artifactPath (archiveFile repoName sha)) ≠ some .errNotExist ∧
      w.osOpen (pathClean (artifactPath (archiveFile repoName sha))) = none ∧
      (getCredentials w (artifactsRepositoryDomain w) username password).err = none ∧
      w.newRequest "HEAD" (artifactsRepositoryDomain w) = none ∧
      (∃ resp,
        (w.clientDo ⟨"HEAD", artifactsRepositoryDomain w,
          some ((getCredentials w (artifactsRepositoryDomain w) username password).ci.Username,
            (getCredentials w (artifactsRepositoryDomain w) username password).ci.Password),
          none⟩).resp = some resp ∧ resp.StatusCode = 200) ∧
      w.newRequest "PUT"
        (artifactArchiveURL (artifactsRepositoryDomain w) repoName (archiveFile repoName sha)) =
        none := by
  have hgc := getCredentials_no_clientDo w (artifactsRepositoryDomain w) username password
  generalize hrun : publish w username password = run
  unfold publish at hrun
  rw [hrepo] at hrun
  dsimp only at hrun
  repeat' split at hrun
  all_goals subst hrun
  all_goals simp_all [Run.after, Run.defer, deferredSave_no_clientDo]

/-! ## The end-to-end scenarios -/

set_option maxRecDepth 8000 in
/-- The successful first publication: repository `demo` at `abc1234`, internal
domain unreachable, no stored credentials, `user` / `secret` supplied, HEAD
answered 200 and PUT answered 201. -/
theorem demo_run :
    publish demoWorld "user" "secret" =
      ⟨[.getRepoInfo,
        .isURLAccessible "http://repositories.interaction.svc.skilld:8081",
        .logInfo "artifact info"
          [("ARTIFACT_DIR", .str ".compose/artifacts"),
            ("ARTIFACT_FILE", .str "demo-abc1234-plasma-src.tar.gz"),
            ("ARTIFACTS_REPOSITORY_DOMAIN", .str "https://repositories.skilld.cloud"),
            ("ARTIFACT_ARCHIVE_URL", .str demoPut.url),
            ("URL Accessibility Code", .int 0)],
        .listFiles ".compose/artifacts",
        .osStat ".compose/artifacts/demo-abc1234-plasma-src.tar.gz",
        .termPrint "Looking for artifact demo-abc1234-plasma-src.tar.gz in .compose/artifacts",
        .osOpen ".compose/artifacts/demo-abc1234-plasma-src.tar.gz",
        .termPrint "Getting credentials",
        .keyringGetForURL "https://repositories.skilld.cloud",
        .keyringAddItem ⟨"https://repositories.skilld.cloud", "user", "secret"⟩,
        .newRequest "HEAD" "https://repositories.skilld.cloud",
        .clientDo demoHead,
        .newRequest "PUT" demoPut.url,
        .termPrint ("Publishing artifact .compose/artifacts/demo-abc1234-plasma-src.tar.gz to " ++
          demoPut.url ++ "..."),
        .clientDo demoPut,
        .termSuccess "Artifact successfully uploaded",
        .keyringSave,
        .bodyClose,
        .fileClose],
      .returned none⟩ := by
  decide

/-- The same publication with the PUT answered 500: the upload fails and the
keyring is not saved. -/
theorem rejected_run :
    (publish rejectedWorld "user" "secret").outcome =
      .returned (some (.msg "failed to upload artifact: 500 Internal Server Error")) ∧
    Event.keyringSave ∉ (publish rejectedWorld "user" "secret").trace := by
  decide

/-- Stored credentials rejected by the HEAD with 401: authentication fails, no
PUT is issued and the keyring is not saved. -/
theorem unauthorized_run :
    (publish unauthorizedWorld "" "").outcome =
      .returned (some (.msg "failed to upload artifact: 401 Unauthorized")) ∧
    (publish unauthorizedWorld "" "").trace.filter Event.isNetwork =
      [.isURLAccessible "http://repositories.interaction.svc.skilld:8081", .clientDo storedHead] ∧
    Event.keyringSave ∉ (publish unauthorizedWorld "" "").trace := by
  decide

/-! ## Claims -/

/-- Claim C1. In every run of `publish`, `k.Save()` is called exactly once when
`getCredentials` returned `save = true` and the PUT was answered with status
200 or 201, and is not called at all in every other run. -/
theorem publish_save_count (w : World) (username password : String) :
    ((getCredentials w (artifactsRepositoryDomain w) username password).save = true ∧
        putAccepted w (publish w username password) →
      (publish w username password).trace.count Event.keyringSave = 1) ∧
    (¬((getCredentials w (artifactsRepositoryDomain w) username password).save = true ∧
        putAccepted w (publish w username password)) →
      (publish w username password).trace.count Event.keyringSave = 0) := by
  have hgc := getCredentials_no_clientDo w (artifactsRepositoryDomain w) username password
  have hgs := getCredentials_count_save w (artifactsRepositoryDomain w) username password
  unfold putAccepted World.accepts
  generalize hrun : publish w username password = run
  unfold publish at hrun
  dsimp only at hrun
  repeat' split at hrun
  all_goals subst hrun
  all_goals simp [Run.after, Run.defer, hgc, hgs, deferredSave_no_clientDo, deferredSave_count,
    List.count_cons]
  all_goals try simp_all [DoResult.resp, RedirectCode.toNat_ne_200, RedirectCode.toNat_ne_201]
  all_goals
    rcases hs : (getCredentials w (artifactsRepositoryDomain w) username password).save <;>
    simp_all

/-- Claim C2. In a run of `publish` that issues the PUT (every earlier stage
passed and the HEAD was answered 200), `publish` returns `nil` if and only if
the PUT was answered with status 200 or 201; otherwise it returns a non-nil
error: the upload failure carrying the status for a response with another
status, and the generic upload error when there is no response. -/
theorem publish_result_of_put (w : World) (username password : String) (req : Request)
    (hmem : Event.clientDo req ∈ (publish w username password).trace)
    (hmethod : req.method = "PUT") :
    ((publish w username password).outcome = .returned none ↔ w.accepts req) ∧
    (¬w.accepts req → ∃ e, (publish w username password).outcome = .returned (some e)) ∧
    (∀ r, (w.clientDo req).err = none → (w.clientDo req).resp = some r →
      r.StatusCode ≠ 200 → r.StatusCode ≠ 201 →
      (publish w username password).outcome =
        .returned (some (.msg ("failed to upload artifact: " ++ r.Status)))) ∧
    ((w.clientDo req).resp = none →
      (publish w username password).outcome =
        .returned (some (.msg "error uploading artifact"))) := by
  have hgc := getCredentials_no_clientDo w (artifactsRepositoryDomain w) username password
  unfold World.accepts
  generalize hrun : publish w username password = run at hmem ⊢
  unfold publish at hrun
  dsimp only at hrun
  repeat' split at hrun
  all_goals subst hrun
  all_goals simp [Run.after, Run.defer, hgc, deferredSave_no_clientDo] at hmem ⊢
  all_goals first
    | (subst hmem; simp_all)
    | (rcases hmem with rfl | rfl <;>
        simp_all [DoResult.resp, DoResult.err, RedirectCode.toNat_ne_200,
          RedirectCode.toNat_ne_201, sprintf_one]; done)
    | skip
  all_goals rcases hmem with rfl | rfl <;> simp_all [DoResult.resp, DoResult.err]
  all_goals tauto

/-- Claim C3, the code at the failing input. In a run of `publish` whose HEAD
request is answered by a transport error without a response, `publish` does
not return: reading `respAuth.StatusCode` panics.  No PUT is issued and
`k.Save()` is not called. -/
theorem publish_head_transport_error_panics (w : World) (username password : String) (req : Request)
    (hmem : Event.clientDo req ∈ (publish w username password).trace)
    (hmethod : req.method = "HEAD")
    (hresp : (w.clientDo req).resp = none) :
    (publish w username password).outcome = .panicked ∧
    (∀ put, Event.clientDo put ∈ (publish w username password).trace → put.method ≠ "PUT") ∧
    Event.keyringSave ∉ (publish w username password).trace := by
  have hgc := getCredentials_no_clientDo w (artifactsRepositoryDomain w) username password
  have hgs := getCredentials_no_save w (artifactsRepositoryDomain w) username password
  generalize hrun : publish w username password = run at hmem ⊢
  unfold publish at hrun
  dsimp only at hrun
  repeat' split at hrun
  all_goals subst hrun
  all_goals simp [Run.after, Run.defer, hgc, hgs, deferredSave_no_clientDo] at hmem ⊢
  all_goals first
    | (subst hmem; simp_all)
    | (rcases hmem with rfl | rfl <;> simp_all)

/-- Claim C4. In a run of `publish` whose HEAD request is answered with a
status other than 200, `publish` returns a non-nil error, issues no PUT and
does not call `k.Save()`. -/
theorem publish_head_rejected (w : World) (username password : String) (req : Request)
    (hmem : Event.clientDo req ∈ (publish w username password).trace)
    (hmethod : req.method = "HEAD")
    (hresp : ∃ r, (w.clientDo req).resp = some r ∧ r.StatusCode ≠ 200) :
    (∃ e, (publish w username password).outcome = .returned (some e)) ∧
    (∀ put, Event.clientDo put ∈ (publish w username password).trace → put.method ≠ "PUT") ∧
    Event.keyringSave ∉ (publish w username password).trace := by
  obtain ⟨r, hr, hne⟩ := hresp
  have hgc := getCredentials_no_clientDo w (artifactsRepositoryDomain w) username password
  have hgs := getCredentials_no_save w (artifactsRepositoryDomain w) username password
  generalize hrun : publish w username password = run at hmem ⊢
  unfold publish at hrun
  dsimp only at hrun
  repeat' split at hrun
  all_goals subst hrun
  all_goals simp [Run.after, Run.defer, hgc, hgs, deferredSave_no_clientDo] at hmem ⊢
  all_goals first
    | (subst hmem; simp_all)
    | (rcases hmem with rfl | rfl <;> simp_all)

/-- Claim C5, amended. When `getRepoInfo` succeeds and `os.Stat` answers that
the artifact does not exist, `publish` returns a non-nil error, issues neither
the HEAD nor the PUT, and its only network call is the reachability probe of
the internal domain.  When `listFiles` succeeds the error is the
artifact-not-found error and the `os.Stat` call is the last call of the run;
when `listFiles` fails the error is the error of `listFiles`, returned before
the existence check. -/
theorem publish_missing_artifact (w : World) (username password repoName sha : String)
    (hrepo : w.getRepoInfo = (repoName, sha, none))
    (hstat : w.osStat (artifactPath (archiveFile repoName sha)) = some .errNotExist) :
    (∃ e, (publish w username password).outcome = .returned (some e)) ∧
    (publish w username password).trace.filter Event.isNetwork =
      [.isURLAccessible "http://repositories.interaction.svc.skilld:8081"] ∧
    (∀ req, Event.clientDo req ∉ (publish w username password).trace) ∧
    (w.listFiles ".compose/artifacts" = none →
      (publish w username password).outcome =
        .returned (some (.msg ("artifact " ++ archiveFile repoName sha ++ " not found in " ++
          ".compose/artifacts" ++ ". Execute \x27plasmactl package\x27 before"))) ∧
      (publish w username password).trace.getLast? =
        some (.osStat (artifactPath (archiveFile repoName sha)))) ∧
    (∀ e, w.listFiles ".compose/artifacts" = some e →
      (publish w username password).outcome = .returned (some e) ∧
      (publish w username password).trace.getLast? = some (.listFiles ".compose/artifacts")) := by
  have hmsg : ∀ a : String,
      sprintf "artifact %s not found in %s. Execute \x27plasmactl package\x27 before"
        [a, ".compose/artifacts"] =
      "artifact " ++ a ++ " not found in " ++ ".compose/artifacts" ++
        ". Execute \x27plasmactl package\x27 before" := by
    intro a
    apply String.ext
    simp [sprintf, sprintfAux]
  cases hlist : w.listFiles ".compose/artifacts" with
  | none =>
    simp [publish, artifactDir, hrepo, hlist, hstat, Run.after, hmsg, Event.isNetwork,
      internalDomain, List.filter_cons]
  | some err =>
    simp [publish, artifactDir, hrepo, hlist, Run.after, Event.isNetwork, internalDomain,
      List.filter_cons]

/-- Claim C6. When `k.GetForURL(url)` succeeds with item `c`, `getCredentials`
returns exactly `(c, false, nil)` whatever `username` and `password` are, and
its only call is `k.GetForURL(url)`: no prompt and no `k.AddItem`. -/
theorem getCredentials_stored (w : World) (url username password : String) (c : CredentialsItem)
    (h : w.getForURL url = (c, none)) :
    getCredentials w url username password = ⟨[.keyringGetForURL url], c, false, none⟩ := by
  simp [getCredentials, h]

/-- Claim C7, amended. When `k.GetForURL(url)` reports entry-not-found and
`username` and `password` are both non-empty, `getCredentials` does not prompt
and calls `k.AddItem` with the item `(url, username, password)`; it returns
that item with `save = true` and a nil error when `k.AddItem` succeeds, and
with `save = false` and the error of `k.AddItem` when it fails. -/
theorem getCredentials_supplied (w : World) (url username password : String)
    (h : (w.getForURL url).2 = some .errNotFound) (hu : username ≠ "") (hp : password ≠ "") :
    (w.addItem ⟨url, username, password⟩ = none →
      getCredentials w url username password =
        ⟨[.keyringGetForURL url, .keyringAddItem ⟨url, username, password⟩],
          ⟨url, username, password⟩, true, none⟩) ∧
    (∀ e, w.addItem ⟨url, username, password⟩ = some e →
      getCredentials w url username password =
        ⟨[.keyringGetForURL url, .keyringAddItem ⟨url, username, password⟩],
          ⟨url, username, password⟩, false, some e⟩) := by
  rcases hg : w.getForURL url with ⟨c, e⟩
  rw [hg] at h
  simp only at h
  subst h
  constructor
  · intro ha
    simp [getCredentials, hg, hu, hp, ha]
  · intro e ha
    simp [getCredentials, hg, hu, hp, ha]

/-- Claim C8. When `k.GetForURL(url)` fails with an error other than
entry-not-found, `getCredentials` returns a non-nil error (the error itself for an
empty passphrase, the malformed-keyring error otherwise) with `save = false`
without prompting and without calling `k.AddItem`; and a run of `publish`
that looks up `url` returns that error without issuing the HEAD or the PUT and
without calling `k.Save()`. -/
theorem getCredentials_fails_fast (w : World) (url username password : String) (e : GoError)
    (h : (w.getForURL url).2 = some e) (hne : e ≠ .errNotFound) :
    ((getCredentials w url username password).err =
        some (if e = .errEmptyPass then e
          else .msg "the keyring is malformed or wrong passphrase provided") ∧
      (getCredentials w url username password).save = false ∧
      (∀ ci, Event.requestCredentialsFromTty ci ∉ (getCredentials w url username password).trace) ∧
      (∀ ci, Event.keyringAddItem ci ∉ (getCredentials w url username password).trace)) ∧
    (Event.keyringGetForURL url ∈ (publish w username password).trace →
      (publish w username password).outcome =
        .returned (getCredentials w url username password).err ∧
      (∀ req, Event.clientDo req ∉ (publish w username password).trace) ∧
      Event.keyringSave ∉ (publish w username password).trace) := by
  rcases hg : w.getForURL url with ⟨c, e'⟩
  rw [hg] at h
  simp only at h
  subst h
  have hgcr : (getCredentials w url username password).err =
        some (if e = .errEmptyPass then e
          else .msg "the keyring is malformed or wrong passphrase provided") ∧
      (getCredentials w url username password).save = false ∧
      (∀ ci, Event.requestCredentialsFromTty ci ∉ (getCredentials w url username password).trace) ∧
      (∀ ci, Event.keyringAddItem ci ∉ (getCredentials w url username password).trace) := by
    by_cases he : e = .errEmptyPass
    · simp [getCredentials, hg, he]
    · simp [getCredentials, hg, he, hne]
  refine ⟨hgcr, ?_⟩
  intro hmem
  have hu := getCredentials_getForURL w (artifactsRepositoryDomain w) username password url
  have hgc := getCredentials_no_clientDo w (artifactsRepositoryDomain w) username password
  have hgs := getCredentials_no_save w (artifactsRepositoryDomain w) username password
  generalize hrun : publish w username password = run at hmem ⊢
  unfold publish at hrun
  dsimp only at hrun
  repeat' split at hrun
  all_goals subst hrun
  all_goals
    simp [Run.after, Run.defer, hgc, hgs, deferredSave_no_clientDo, deferredSave_no_getForURL]
      at hmem ⊢
  all_goals have hd := hu hmem
  all_goals subst hd
  all_goals simp_all

/-- Claim C9. In a run of `publish` whose PUT was answered with status 200 or
201 and in which `getCredentials` returned `save = true`, `publish` returns
`nil` whatever `k.Save()` returns; `k.Save()` is called and its error, if any,
is logged. -/
theorem publish_ignores_save_error (w : World) (username password : String) (req : Request)
    (hmem : Event.clientDo req ∈ (publish w username password).trace)
    (hmethod : req.method = "PUT") (hok : w.accepts req)
    (hsave : (getCredentials w (artifactsRepositoryDomain w) username password).save = true) :
    (publish w username password).outcome = .returned none ∧
    Event.keyringSave ∈ (publish w username password).trace ∧
    (∀ e, w.save = some e →
      Event.logError "error during saving keyring file" e ∈ (publish w username password).trace) := by
  have hgc := getCredentials_no_clientDo w (artifactsRepositoryDomain w) username password
  unfold World.accepts at hok
  obtain ⟨r, hr, hcode⟩ := hok
  generalize hrun : publish w username password = run at hmem ⊢
  unfold publish at hrun
  dsimp only at hrun
  repeat' split at hrun
  all_goals subst hrun
  all_goals simp [Run.after, Run.defer, hgc, deferredSave_no_clientDo] at hmem ⊢
  all_goals first
    | (subst hmem; simp_all)
    | (rcases hmem with rfl | rfl <;>
        simp_all [DoResult.resp, RedirectCode.toNat_ne_200, RedirectCode.toNat_ne_201,
          deferredSave])
  all_goals first
    | (subst hr; simp [RedirectCode.toNat_ne_200, RedirectCode.toNat_ne_201] at hcode)
    | (cases hs : w.save <;> simp_all)

/-- Claim C10. With `getRepoInfo` returning `(repoName, sha)`, the artifact file
name `publish` derives is `repoName-sha-plasma-src.tar.gz`; every PUT it issues
goes to `D/repository/repoName-artifacts/` followed by that file name, every
HEAD goes to `D` and every keyring lookup is for `D`, where `D` is the internal
domain when the probe reports it reachable and the public domain otherwise. -/
theorem publish_names (w : World) (username password repoName sha : String)
    (hrepo : w.getRepoInfo = (repoName, sha, none)) :
    (∃ attrs, Event.logInfo "artifact info" attrs ∈ (publish w username password).trace ∧
      ("ARTIFACT_FILE", LogValue.str (repoName ++ "-" ++ sha ++ "-plasma-src.tar.gz")) ∈ attrs) ∧
    (∀ path, Event.osStat path ∈ (publish w username password).trace →
      path = filepathJoin [".compose/artifacts", repoName ++ "-" ++ sha ++ "-plasma-src.tar.gz"]) ∧
    (∀ req, Event.clientDo req ∈ (publish w username password).trace →
      (req.method = "PUT" ∧
        req.url =
          (if (w.isURLAccessible "http://repositories.interaction.svc.skilld:8081").1 then
            "http://repositories.interaction.svc.skilld:8081"
          else "https://repositories.skilld.cloud") ++ "/repository/" ++ repoName ++
            "-artifacts/" ++ (repoName ++ "-" ++ sha ++ "-plasma-src.tar.gz")) ∨
      (req.method = "HEAD" ∧
        req.url =
          if (w.isURLAccessible "http://repositories.interaction.svc.skilld:8081").1 then
            "http://repositories.interaction.svc.skilld:8081"
          else "https://repositories.skilld.cloud")) ∧
    (∀ url, Event.keyringGetForURL url ∈ (publish w username password).trace →
      url =
        if (w.isURLAccessible "http://repositories.interaction.svc.skilld:8081").1 then
          "http://repositories.interaction.svc.skilld:8081"
        else "https://repositories.skilld.cloud") ∧
    ((publish w username password).outcome = .returned none →
      ∃ req, Event.clientDo req ∈ (publish w username password).trace ∧ req.method = "PUT") := by
  have h := publish_names_aux w username password repoName sha hrepo
  simp only [archiveFile_eq, artifactArchiveURL_eq, artifactPath, artifactDir,
    artifactsRepositoryDomain, internalDomain, publicDomain] at h
  exact h

/-! ## Example runs -/

/-- Witness of C1: the successful first publication saves the keyring once. -/
theorem publish_save_count_witness :
    (publish demoWorld "user" "secret").trace.count Event.keyringSave = 1 :=
  (publish_save_count demoWorld "user" "secret").1
    ⟨by decide, demoPut, by decide, by decide, ⟨201, "201 Created"⟩, by decide, by decide⟩

/-- Witness of C2: a PUT answered 500 makes `publish` return the upload failure. -/
theorem publish_result_of_put_witness :
    Event.clientDo demoPut ∈ (publish rejectedWorld "user" "secret").trace ∧
    (publish rejectedWorld "user" "secret").outcome =
      .returned (some (.msg ("failed to upload artifact: " ++ "500 Internal Server Error"))) :=
  ⟨by decide,
    (publish_result_of_put rejectedWorld "user" "secret" demoPut (by decide) (by decide)).2.2.1
      ⟨500, "500 Internal Server Error"⟩ (by decide) (by decide) (by decide) (by decide)⟩

/-- Witness of C3: a refused HEAD connection makes `publish` panic. -/
theorem publish_head_transport_error_panics_witness :
    Event.clientDo demoHead ∈ (publish refusedWorld "user" "secret").trace ∧
    (publish refusedWorld "user" "secret").outcome = .panicked :=
  ⟨by decide,
    (publish_head_transport_error_panics refusedWorld "user" "secret" demoHead
      (by decide) (by decide) (by decide)).1⟩

/-- Witness of C4: stored credentials rejected with 401. -/
theorem publish_head_rejected_witness :
    Event.clientDo storedHead ∈ (publish unauthorizedWorld "" "").trace ∧
    Event.keyringSave ∉ (publish unauthorizedWorld "" "").trace :=
  ⟨by decide,
    (publish_head_rejected unauthorizedWorld "" "" storedHead (by decide) (by decide)
      ⟨⟨401, "401 Unauthorized"⟩, by decide, by decide⟩).2.2⟩

/-- Claim C5 as stated fails twice.  In the run without the artifact file the
reachability probe of the internal domain is a network call; and when the
artifact directory cannot be listed, the error returned is the error of
`listFiles`, not the artifact-not-found error. -/
theorem publish_missing_artifact_probe_counterexample :
    ¬(missingWorld.osStat ".compose/artifacts/demo-abc1234-plasma-src.tar.gz" =
        some .errNotExist →
      ∀ e ∈ (publish missingWorld "user" "secret").trace, e.isNetwork = false) ∧
    ¬(unlistableWorld.osStat ".compose/artifacts/demo-abc1234-plasma-src.tar.gz" =
        some .errNotExist →
      (publish unlistableWorld "user" "secret").outcome =
        .returned (some (.msg ("artifact demo-abc1234-plasma-src.tar.gz not found in " ++
          ".compose/artifacts. Execute \x27plasmactl package\x27 before")))) := by
  decide

/-- Witness of C5, amended: the runs without the artifact file, with a
directory that can and that cannot be listed. -/
theorem publish_missing_artifact_witness :
    (publish missingWorld "user" "secret").trace.filter Event.isNetwork =
      [.isURLAccessible "http://repositories.interaction.svc.skilld:8081"] ∧
    (publish unlistableWorld "user" "secret").trace.filter Event.isNetwork =
      [.isURLAccessible "http://repositories.interaction.svc.skilld:8081"] ∧
    (publish unlistableWorld "user" "secret").outcome =
      .returned (some (.msg "open .compose/artifacts: no such file or directory")) :=
  ⟨(publish_missing_artifact missingWorld "user" "secret" "demo" "abc1234" rfl rfl).2.1,
    (publish_missing_artifact unlistableWorld "user" "secret" "demo" "abc1234" rfl rfl).2.1,
    ((publish_missing_artifact unlistableWorld "user" "secret" "demo" "abc1234" rfl rfl).2.2.2.2
      _ rfl).1⟩

/-- Witness of C6: the stored item is returned whatever is supplied. -/
theorem getCredentials_stored_witness :
    getCredentials unauthorizedWorld "https://repositories.skilld.cloud" "user" "secret" =
      ⟨[.keyringGetForURL "https://repositories.skilld.cloud"],
        ⟨"https://repositories.skilld.cloud", "alice", "hunter2"⟩, false, none⟩ :=
  getCredentials_stored unauthorizedWorld "https://repositories.skilld.cloud" "user" "secret"
    ⟨"https://repositories.skilld.cloud", "alice", "hunter2"⟩ rfl

/-- Claim C7 as stated fails: when `k.AddItem` returns an error the supplied
credentials are returned with `save = false`. -/
theorem getCredentials_addItem_error_counterexample :
    ¬((addFailsWorld.getForURL "https://repositories.skilld.cloud").2 = some .errNotFound →
      "user" ≠ "" → "secret" ≠ "" →
      (getCredentials addFailsWorld "https://repositories.skilld.cloud" "user" "secret").save =
        true) := by
  decide

/-- Witness of C7, amended: supplied credentials are added and flagged. -/
theorem getCredentials_supplied_witness :
    getCredentials demoWorld "https://repositories.skilld.cloud" "user" "secret" =
      ⟨[.keyringGetForURL "https://repositories.skilld.cloud",
          .keyringAddItem ⟨"https://repositories.skilld.cloud", "user", "secret"⟩],
        ⟨"https://repositories.skilld.cloud", "user", "secret"⟩, true, none⟩ :=
  (getCredentials_supplied demoWorld "https://repositories.skilld.cloud" "user" "secret"
    rfl (by decide) (by decide)).1 rfl

/-- Witness of C8: a keyring opened without passphrase stops `publish`. -/
theorem getCredentials_fails_fast_witness :
    (publish emptyPassWorld "user" "secret").outcome = .returned (some .errEmptyPass) :=
  ((getCredentials_fails_fast emptyPassWorld "https://repositories.skilld.cloud" "user" "secret"
    .errEmptyPass rfl (by decide)).2 (by decide)).1

/-- Witness of C9: the keyring cannot be written and `publish` returns `nil`. -/
theorem publish_ignores_save_error_witness :
    saveFailsWorld.save = some (.msg "disk full") ∧
    (publish saveFailsWorld "user" "secret").outcome = .returned none :=
  ⟨rfl,
    (publish_ignores_save_error saveFailsWorld "user" "secret" demoPut (by decide) (by decide)
      ⟨⟨201, "201 Created"⟩, by decide, by decide⟩ (by decide)).1⟩

/-- Witness of C10: the names of the successful first publication. -/
theorem publish_names_witness :
    Event.clientDo demoPut ∈ (publish demoWorld "user" "secret").trace ∧
    demoPut.url = "https://repositories.skilld.cloud" ++ "/repository/" ++ "demo" ++
      "-artifacts/" ++ ("demo" ++ "-" ++ "abc1234" ++ "-plasma-src.tar.gz") :=
  ⟨by decide,
    ((publish_names demoWorld "user" "secret" "demo" "abc1234" rfl).2.2.1 demoPut
      (by decide)).elim (fun h => h.2) (fun h => absurd h.1 (by decide))⟩

end PlasmactlPublish
